import Mathlib

/-
Verification of the health/status-check handler of express-docker-demo.

The embedding models `src/index.js` (the `GET /db-check` Express handler)
and `public/app.js` (the `fetchJSON` presentation client).  The probe
`pool.query("SELECT NOW() AS server_time")` is modelled as a value of
`Except String (List Row)`: `Except.error m` is a rejected query whose
error carries message `m`, `Except.ok rows` is a resolved query with the
given row set.  JavaScript `undefined` is modelled by `Option.none`, and
thrown exceptions by the `Except` monad.
-/

namespace ExpressDockerDemo

/-- A row returned by the driver for `SELECT NOW() AS server_time`.  A row
is a JavaScript object; reading the `server_time` column when it is absent
yields `undefined`, modelled by `none`. -/
structure Row where
  server_time : Option String
deriving DecidableEq

/-- An HTTP response: the numeric status code and the serialized JSON body
as an ordered list of key/value pairs, in the order `JSON.stringify` emits
them (object insertion order). -/
structure Response where
  status : Nat
  body : List (String × String)
deriving DecidableEq

/-- Message of the `TypeError` raised by `rows[0].server_time` when `rows`
is empty (`rows[0]` is `undefined` and the property read throws). -/
def typeErrorMessage : String :=
  "Cannot read properties of undefined (reading server_time)"

/-- Evaluation of `rows[0].server_time`: throws a `TypeError` when the row
set is empty, otherwise reads the column of the first row (the read itself
may yield `undefined` when the column is absent). -/
def readServerTime : List Row → Except String (Option String)
  | [] => Except.error typeErrorMessage
  | r :: _ => Except.ok r.server_time

/-- One field of the object literal passed to `res.json`: `none` models a
JavaScript `undefined` value. -/
structure JsonField where
  key : String
  value : Option String
deriving DecidableEq

/-- Serialization performed by `res.json` (`JSON.stringify` on the object
literal): keys in insertion order, fields whose value is `undefined`
omitted from the output. -/
def serializeFields (fs : List JsonField) : List (String × String) :=
  fs.filterMap (fun f => f.value.map (fun v => (f.key, v)))

/-- Body of the `try` block of the `GET /db-check` handler in
`src/index.js`: await the probe, read `rows[0].server_time`, and send
`res.json({status, database, serverTime})`.  No explicit status is set on
this branch, so the response keeps the Express default status 200.
An `Except.error` result is an exception thrown inside the `try` block. -/
def tryBody (dbName : String) (probe : Except String (List Row)) :
    Except String Response := do
  let rows ← probe
  let serverTime ← readServerTime rows
  pure { status := 200,
         body := serializeFields
           [⟨"status", some "ok"⟩, ⟨"database", some dbName⟩,
            ⟨"serverTime", serverTime⟩] }

/-- The error envelope body `{"status":"error","message": m}` sent by the
`catch` branch. -/
def errBody (m : String) : List (String × String) :=
  [("status", "error"), ("message", m)]

/-- The success envelope body `{"status":"ok","database": dbName,
"serverTime": t}` of the spec table, for a present server time `t`. -/
def okBody (dbName t : String) : List (String × String) :=
  [("status", "ok"), ("database", dbName), ("serverTime", t)]

/-- The success response: envelope body with the Express default status. -/
def okResponse (dbName t : String) : Response :=
  { status := 200, body := okBody dbName t }

/-- The failure response: error envelope with `res.status(500)`. -/
def errResponse (m : String) : Response :=
  { status := 500, body := errBody m }

/-- The response sent on the success branch when the first row lacks the
`server_time` column: `serverTime` is `undefined` and `JSON.stringify`
omits it, so the body has only the status and database fields. -/
def okNoTimeResponse (dbName : String) : Response :=
  { status := 200, body := [("status", "ok"), ("database", dbName)] }

/-- The full `GET /db-check` handler: the `try/catch` around `tryBody`.
The `catch` branch sends `res.status(500).json({status:"error", message:
error.message})`.  The handler result is `Except.ok` when a response is
sent; an outer `Except.error` would mean an exception escaped the
handler uncaught. -/
def dbCheck (dbName : String) (probe : Except String (List Row)) :
    Except String Response :=
  match tryBody dbName probe with
  | Except.ok resp => Except.ok resp
  | Except.error e =>
      Except.ok { status := 500,
                  body := serializeFields
                    [⟨"status", some "error"⟩, ⟨"message", some e⟩] }

/-- Whether the serialized body contains a field with the given key. -/
def hasField (body : List (String × String)) (k : String) : Bool :=
  body.any (fun f => f.1 == k)

/-- The value of the first field with the given key, if any. -/
def getField (body : List (String × String)) (k : String) : Option String :=
  (body.find? (fun f => f.1 == k)).map (fun f => f.2)

/-- What the browser `fetch` resolves with when the network request itself
succeeds: the `ok` flag, HTTP metadata, and the result of
`response.json()`, which may itself reject on an unparseable body. -/
structure FetchResponse where
  ok : Bool
  status : Nat
  statusText : String
  jsonBody : Except String String

/-- Display state of an output node as written by `setStatus` in
`public/app.js`: the transient loading text, the success rendering of a
payload (`JSON.stringify(payload, null, 2)`), or the error rendering of a
failure message. -/
inductive Display
  | loading
  | success (payload : String)
  | error (message : String)
deriving DecidableEq

/-- The `try` block of `fetchJSON`: await `fetch` (whose rejection is the
outer `Except.error`), throw `new Error` with the interpolated status and
status text when `response.ok` is false, then await `response.json()`. -/
def fetchBody (env : Except String FetchResponse) : Except String String := do
  let response ← env
  if !response.ok then
    Except.error (toString response.status ++ " " ++ response.statusText)
  else
    response.jsonBody

/-- The sequence of display states `fetchJSON` writes to its target node:
first the loading state, then the single terminal state chosen by the
`try/catch`. -/
def fetchJSON (env : Except String FetchResponse) : List Display :=
  [Display.loading,
   match fetchBody env with
   | Except.ok payload => Display.success payload
   | Except.error e => Display.error e]


/-- C1: when the probe succeeds and its first row reports server time `t`,
the response is the ok envelope with the configured database name and `t`;
in particular the spec scenario with database `testdb` and probe value
`2024-01-01T00:00:00Z` yields exactly that envelope. -/
theorem c1_success_envelope :
    (∀ (dbName t : String) (rest : List Row),
      dbCheck dbName (Except.ok (Row.mk (some t) :: rest)) =
        Except.ok (okResponse dbName t)) ∧
    dbCheck "testdb" (Except.ok [Row.mk (some "2024-01-01T00:00:00Z")]) =
      Except.ok (okResponse "testdb" "2024-01-01T00:00:00Z") := by
  exact ⟨fun dbName t rest => rfl, rfl⟩

/-- C2: when the probe fails with message `m`, the response is the error
envelope carrying `m`, delivered with HTTP status 500 (and every success
response carries status 200, distinct from 500). -/
theorem c2_error_envelope (dbName m : String) :
    dbCheck dbName (Except.error m) = Except.ok (errResponse m) ∧
    (errResponse m).status = 500 ∧
    ∀ t, ((okResponse dbName t).status == (errResponse m).status) = false := by
  exact ⟨rfl, rfl, fun t => rfl⟩

/-- C3: every envelope the handler sends populates exactly one of the
success-detail fields (database, serverTime) and the error-message field:
success envelopes carry no message, error envelopes carry neither database
nor serverTime. -/
theorem c3_exactly_one (dbName : String) (probe : Except String (List Row))
    (resp : Response) (h : dbCheck dbName probe = Except.ok resp) :
    ((hasField resp.body "database" || hasField resp.body "serverTime")
        = !(hasField resp.body "message")) ∧
    (getField resp.body "status" = some "ok" →
      hasField resp.body "message" = false) ∧
    (getField resp.body "status" = some "error" →
      hasField resp.body "database" = false ∧
        hasField resp.body "serverTime" = false) := by
  cases probe with
  | error m =>
      have hr : resp = errResponse m := (Except.ok.inj h).symm
      subst hr
      exact ⟨rfl, fun hc => absurd (Option.some.inj hc) (by decide), fun hc => ⟨rfl, rfl⟩⟩
  | ok rows =>
      cases rows with
      | nil =>
          have hr : resp = errResponse typeErrorMessage := (Except.ok.inj h).symm
          subst hr
          exact ⟨rfl, fun hc => absurd (Option.some.inj hc) (by decide), fun hc => ⟨rfl, rfl⟩⟩
      | cons r rest =>
          cases r with
          | mk st =>
              cases st with
              | none =>
                  have hr : resp = okNoTimeResponse dbName :=
                    (Except.ok.inj h).symm
                  subst hr
                  exact ⟨rfl, fun _ => rfl,
                    fun hc => absurd (Option.some.inj hc) (by decide)⟩
              | some t =>
                  have hr : resp = okResponse dbName t := (Except.ok.inj h).symm
                  subst hr
                  exact ⟨rfl, fun _ => rfl,
                    fun hc => absurd (Option.some.inj hc) (by decide)⟩

/-- Witness for C3 at a concrete failing probe. -/
theorem c3_witness :
    ((hasField (errResponse "boom").body "database" ||
        hasField (errResponse "boom").body "serverTime")
        = !(hasField (errResponse "boom").body "message")) ∧
    (getField (errResponse "boom").body "status" = some "ok" →
      hasField (errResponse "boom").body "message" = false) ∧
    (getField (errResponse "boom").body "status" = some "error" →
      hasField (errResponse "boom").body "database" = false ∧
        hasField (errResponse "boom").body "serverTime" = false) :=
  c3_exactly_one "testdb" (Except.error "boom") (errResponse "boom") rfl


/-- C4 counterexample: a probe result whose first row lacks the
`server_time` column is NOT treated like a dependency-unreachable failure:
the handler sends a success envelope with HTTP status 200 (with the
`serverTime` field omitted), not the error envelope with 500. -/
theorem c4_counterexample :
    dbCheck "testdb" (Except.ok [Row.mk none]) =
      Except.ok (okNoTimeResponse "testdb") ∧
    (okNoTimeResponse "testdb").status = 200 ∧
    getField (okNoTimeResponse "testdb").body "status" = some "ok" ∧
    ((okNoTimeResponse "testdb").status == 500) = false := by
  exact ⟨rfl, rfl, rfl, rfl⟩

/-- C4 (amended): a probe result with an empty row set is treated like a
dependency-unreachable failure (the `rows[0]` access throws, the exception
is caught, and the error envelope is sent with HTTP 500); but a probe
result whose first row lacks the `server_time` column yields the ok
envelope with HTTP 200 and the `serverTime` field omitted. -/
theorem c4_malformed_rows (dbName : String) (rest : List Row) :
    dbCheck dbName (Except.ok []) =
      Except.ok (errResponse typeErrorMessage) ∧
    dbCheck dbName (Except.ok (Row.mk none :: rest)) =
      Except.ok (okNoTimeResponse dbName) :=
  ⟨rfl, rfl⟩

/-- C5: a probe failure is never fatal: for every probe result the handler
sends a response (the unhandled-exception outcome `Except.error` is
unreachable), and whenever the `try` block throws, the `catch` branch
converts the exception into the error envelope with HTTP 500. -/
theorem c5_never_fatal (dbName : String) (probe : Except String (List Row)) :
    (∃ resp, dbCheck dbName probe = Except.ok resp) ∧
    ∀ e, tryBody dbName probe = Except.error e →
      dbCheck dbName probe = Except.ok (errResponse e) := by
  constructor
  · cases hp : tryBody dbName probe with
    | ok resp => exact ⟨resp, by simp [dbCheck, hp]⟩
    | error e => exact ⟨errResponse e, by simp [dbCheck, hp, errResponse, errBody, serializeFields]⟩
  · intro e he
    simp [dbCheck, he, errResponse, errBody, serializeFields]

/-- Witness for C5 at a concrete rejected probe. -/
theorem c5_witness :
    (∃ resp, dbCheck "testdb" (Except.error "connect ECONNREFUSED") =
      Except.ok resp) ∧
    dbCheck "testdb" (Except.error "connect ECONNREFUSED") =
      Except.ok (errResponse "connect ECONNREFUSED") :=
  ⟨(c5_never_fatal "testdb" (Except.error "connect ECONNREFUSED")).1,
   (c5_never_fatal "testdb" (Except.error "connect ECONNREFUSED")).2
     "connect ECONNREFUSED" rfl⟩

/-- C6: N invocations with healthy probes yield N ok envelopes, and the
i-th response is a function of the i-th probe alone (the handler is a pure
function of the configuration and of that call's probe result, so no
response references state from a prior call). -/
theorem c6_independent (dbName : String)
    (probes : List (Except String (List Row)))
    (h : ∀ p ∈ probes, ∃ t rest, p = Except.ok (Row.mk (some t) :: rest)) :
    (probes.map (dbCheck dbName)).length = probes.length ∧
    (∀ r ∈ probes.map (dbCheck dbName),
      ∃ t, r = Except.ok (okResponse dbName t)) ∧
    ∀ (i : Nat) (hi : i < probes.length)
      (hj : i < (probes.map (dbCheck dbName)).length),
      (probes.map (dbCheck dbName)).get ⟨i, hj⟩ =
        dbCheck dbName (probes.get ⟨i, hi⟩) := by
  refine ⟨List.length_map probes (dbCheck dbName), ?_, ?_⟩
  · intro r hr
    rcases List.mem_map.mp hr with ⟨p, hp, rfl⟩
    rcases h p hp with ⟨t, rest, rfl⟩
    exact ⟨t, rfl⟩
  · intro i hi hj
    simp [List.get_eq_getElem, List.getElem_map]

/-- Witness for C6 on a concrete two-element healthy probe list. -/
theorem c6_witness :
    ([Except.ok [Row.mk (some "t1")],
      Except.ok [Row.mk (some "t2")]].map (dbCheck "testdb")).length = 2 ∧
    ([Except.ok [Row.mk (some "t1")],
      Except.ok [Row.mk (some "t2")]].map (dbCheck "testdb")).get
        ⟨0, by decide⟩ =
      dbCheck "testdb" (Except.ok [Row.mk (some "t1")]) := by
  have hh : ∀ p ∈ ([Except.ok [Row.mk (some "t1")],
      Except.ok [Row.mk (some "t2")]] : List (Except String (List Row))),
      ∃ t rest, p = Except.ok (Row.mk (some t) :: rest) := by
    intro p hp
    simp only [List.mem_cons, List.not_mem_nil, or_false] at hp
    rcases hp with rfl | rfl
    · exact ⟨"t1", [], rfl⟩
    · exact ⟨"t2", [], rfl⟩
  exact ⟨(c6_independent "testdb" _ hh).1,
    (c6_independent "testdb" _ hh).2.2 0 (by decide) (by decide)⟩

/-- C7: every trigger of `fetchJSON`, for every outcome of the underlying
request (network failure, non-OK HTTP status, unparseable body, success),
writes the loading state and then exactly one terminal rendering, either
success or error, never leaving the loading state displayed. -/
theorem c7_terminal_rendering (env : Except String FetchResponse) :
    ∃ d, fetchJSON env = [Display.loading, d] ∧
      ((∃ p, d = Display.success p) ∨ (∃ m, d = Display.error m)) := by
  cases hb : fetchBody env with
  | ok payload =>
      refine ⟨Display.success payload, ?_, Or.inl ⟨payload, rfl⟩⟩
      simp [fetchJSON, hb]
  | error e =>
      refine ⟨Display.error e, ?_, Or.inr ⟨e, rfl⟩⟩
      simp [fetchJSON, hb]


/-- C8 counterexample: the database identifier of the success envelope does
NOT originate from the dependency response: for one and the same probe
result, two different configured names yield two different database
fields, so the field is the configured `DB_NAME`, not dependency-reported
data. -/
theorem c8_counterexample :
    dbCheck "configA" (Except.ok [Row.mk (some "2024-01-01T00:00:00Z")]) =
      Except.ok (okResponse "configA" "2024-01-01T00:00:00Z") ∧
    dbCheck "configB" (Except.ok [Row.mk (some "2024-01-01T00:00:00Z")]) =
      Except.ok (okResponse "configB" "2024-01-01T00:00:00Z") ∧
    (getField (okResponse "configA" "2024-01-01T00:00:00Z").body "database"
      == getField (okResponse "configB" "2024-01-01T00:00:00Z").body
        "database") = false := by
  exact ⟨rfl, rfl, by decide⟩

/-- C8 (amended): on a successful probe the `serverTime` field of the
success envelope originates from the dependency response (the first row's
`server_time` value), while the `database` field is the configured
database name `DB_NAME`, not read from the dependency response. -/
theorem c8_metadata_origin (dbName t : String) (rest : List Row)
    (resp : Response)
    (h : dbCheck dbName (Except.ok (Row.mk (some t) :: rest)) =
      Except.ok resp) :
    getField resp.body "serverTime" = some t ∧
    getField resp.body "database" = some dbName := by
  have hr : resp = okResponse dbName t := (Except.ok.inj h).symm
  subst hr
  exact ⟨rfl, rfl⟩

/-- Witness for C8 (amended) at the spec scenario input. -/
theorem c8_witness :
    getField (okResponse "testdb" "2024-01-01T00:00:00Z").body "serverTime" =
      some "2024-01-01T00:00:00Z" ∧
    getField (okResponse "testdb" "2024-01-01T00:00:00Z").body "database" =
      some "testdb" :=
  c8_metadata_origin "testdb" "2024-01-01T00:00:00Z" []
    (okResponse "testdb" "2024-01-01T00:00:00Z") rfl

/-- C9 counterexample: the handler copies the underlying failure message
verbatim, so a probe failure whose message is empty produces an error
envelope whose message field is the empty string, not a non-empty one. -/
theorem c9_counterexample :
    dbCheck "testdb" (Except.error "") = Except.ok (errResponse "") ∧
    getField (errResponse "").body "message" = some "" := by
  exact ⟨rfl, rfl⟩

/-- C9 (amended): the message field of the error envelope equals the
underlying failure message verbatim; in particular it is non-empty
whenever the underlying failure message is non-empty. -/
theorem c9_message_nonempty (dbName m : String) (hm : (m == "") = false)
    (resp : Response) (h : dbCheck dbName (Except.error m) = Except.ok resp) :
    getField resp.body "message" = some m ∧ (m == "") = false := by
  have hr : resp = errResponse m := (Except.ok.inj h).symm
  subst hr
  exact ⟨rfl, hm⟩

/-- Witness for C9 (amended) at a driver-style connection failure. -/
theorem c9_witness :
    getField (errResponse "connect ECONNREFUSED 127.0.0.1:5432").body
      "message" = some "connect ECONNREFUSED 127.0.0.1:5432" ∧
    ("connect ECONNREFUSED 127.0.0.1:5432" == "") = false :=
  c9_message_nonempty "testdb" "connect ECONNREFUSED 127.0.0.1:5432"
    (by decide) (errResponse "connect ECONNREFUSED 127.0.0.1:5432") rfl

/-- C10: the success branch sets no explicit status, so success envelopes
go out with the framework default 200 and error envelopes with 500; the
HTTP status alone distinguishes success from failure. -/
theorem c10_status_codes (dbName : String)
    (probe : Except String (List Row)) (resp : Response)
    (h : dbCheck dbName probe = Except.ok resp) :
    (getField resp.body "status" = some "ok" → resp.status = 200) ∧
    (getField resp.body "status" = some "error" → resp.status = 500) ∧
    (resp.status = 200 ∨ resp.status = 500) := by
  cases probe with
  | error m =>
      have hr : resp = errResponse m := (Except.ok.inj h).symm
      subst hr
      exact ⟨fun hc => absurd (Option.some.inj hc) (by decide),
        fun _ => rfl, Or.inr rfl⟩
  | ok rows =>
      cases rows with
      | nil =>
          have hr : resp = errResponse typeErrorMessage := (Except.ok.inj h).symm
          subst hr
          exact ⟨fun hc => absurd (Option.some.inj hc) (by decide),
            fun _ => rfl, Or.inr rfl⟩
      | cons r rest =>
          cases r with
          | mk st =>
              cases st with
              | none =>
                  have hr : resp = okNoTimeResponse dbName :=
                    (Except.ok.inj h).symm
                  subst hr
                  exact ⟨fun _ => rfl,
                    fun hc => absurd (Option.some.inj hc) (by decide),
                    Or.inl rfl⟩
              | some t =>
                  have hr : resp = okResponse dbName t := (Except.ok.inj h).symm
                  subst hr
                  exact ⟨fun _ => rfl,
                    fun hc => absurd (Option.some.inj hc) (by decide),
                    Or.inl rfl⟩

/-- Witness for C10 at a concrete healthy probe. -/
theorem c10_witness :
    (getField (okResponse "testdb" "t0").body "status" = some "ok" →
      (okResponse "testdb" "t0").status = 200) ∧
    (getField (okResponse "testdb" "t0").body "status" = some "error" →
      (okResponse "testdb" "t0").status = 500) ∧
    ((okResponse "testdb" "t0").status = 200 ∨
      (okResponse "testdb" "t0").status = 500) :=
  c10_status_codes "testdb" (Except.ok [Row.mk (some "t0")])
    (okResponse "testdb" "t0") rfl

end ExpressDockerDemo
